import Mathlib

/-
  Shallow embedding of src/scrap_neurIPS_papers.py.

  The script scrapes NeurIPS papers: for each year it fetches an index page,
  derives per-paper hashes, fetches each paper page (with a retry loop), parses
  it along a legacy (year <= 2019, JSON metadata) or modern (year >= 2020, HTML
  abstract page) path, accumulates records into process-wide lists, optionally
  writes per-paper csv files, and at the end writes two aggregate csv files.

  Network behaviour is modelled by oracles: a list of per-attempt outcomes for
  the paper-page retry loop, a single outcome for the second (extraction) fetch
  and for the year-index fetch.  All requested URLs are tracked explicitly.
-/

-- Constants (lines 41-42).
def BASE_URL : String := "https://papers.neurips.cc/paper/"

def BASE_URL_20 : String := "https://proceedings.neurips.cc/paper_files/paper"

/-- Outcome of one requests.get attempt inside the retry loop (line 110):
either a transport-level response (status code and body text) or a raised
exception (caught at line 111). -/
inductive Attempt where
  | ok (status : Nat) (body : String)
  | exn
deriving DecidableEq

/-- How the retry loop (lines 106-122) ends on a given trace of attempts. -/
inductive LoopOutcome where
  | breakOk (body : String) (rest : List Attempt)
  | fatalSentinel
  | attrCrash
  | exhausted
deriving DecidableEq

/-- Observable behaviour of one run of the retry loop: its outcome, the sleeps
performed (line 113), and the number of requests issued (line 110). -/
structure LoopRun where
  outcome : LoopOutcome
  sleeps : List Nat
  requests : Nat
deriving DecidableEq

/-- Lines 114-116: sleep_time doubles after each caught exception and is capped
at 60.  The float arithmetic is exact on these values, so Nat is faithful. -/
def nextSleep (s : Nat) : Nat := if s * 2 > 60 then 60 else s * 2

/-- The retry loop of scrap_paper_and_authors, lines 106-122.  State: the trace
of attempts still to come, the previous response (response is None before the
first attempt, line 106), and the current sleep_time (1 at entry, line 107).
After a caught exception the loop sleeps, doubles sleep_time, and then falls
through to the status check on the STALE response variable (line 118): if no
response was ever assigned, response is None and the attribute access crashes
(modelled by attrCrash); if the stale response has a non-200 status the loop
simply iterates again.  On a transport-completed response with status 200 and
body "Resource Not Found" a RuntimeError is raised (line 121); with any other
200 body the loop breaks; with a non-200 status there is no break, so the loop
immediately requests again. -/
def fetchLoop : List Attempt → Option (Nat × String) → Nat → LoopRun
  | [], _, _ => ⟨.exhausted, [], 0⟩
  | .ok st body :: rest, _, s =>
      if st = 200 then
        if body = "Resource Not Found" then ⟨.fatalSentinel, [], 1⟩
        else ⟨.breakOk body rest, [], 1⟩
      else
        let r := fetchLoop rest (some (st, body)) s
        ⟨r.outcome, r.sleeps, r.requests + 1⟩
  | .exn :: rest, prev, s =>
      match prev with
      | none => ⟨.attrCrash, [s], 1⟩
      | some (pst, pbody) =>
          if pst = 200 then
            if pbody = "Resource Not Found" then ⟨.fatalSentinel, [s], 1⟩
            else ⟨.breakOk pbody rest, [s], 1⟩
          else
            let r := fetchLoop rest (some (pst, pbody)) (nextSleep s)
            ⟨r.outcome, s :: r.sleeps, r.requests + 1⟩

example : fetchLoop [.ok 404 "x", .ok 200 "y"] none 1 = ⟨.breakOk "y" [], [], 2⟩ := rfl

example : fetchLoop [.exn] none 1 = ⟨.attrCrash, [1], 1⟩ := rfl

example : fetchLoop [.exn, .exn, .ok 200 "y"] (some (500, "e")) 1 =
    ⟨.breakOk "y" [], [1, 2], 3⟩ := rfl

-- Hash discovery: get_all_hashes, lines 55-76.

/-- Python str.split with a one-character separator, on the character list:
it always returns a nonempty list, the empty string splits to [""], and
separators at the ends produce empty fields, exactly as in Python. -/
def splitOnChar (c : Char) : List Char → List (List Char)
  | [] => [[]]
  | x :: xs =>
      let r := splitOnChar c xs
      if x = c then [] :: r
      else (x :: r.headD []) :: r.tail

/-- Python str.split with a one-character separator, as a String function. -/
def pySplit (c : Char) (s : String) : List String :=
  (splitOnChar c s.toList).map List.asString

/-- Line 69: paper_url.split("/")[-1].split("-")[0].  pySplit never returns an
empty list, so the default values are never used. -/
def paperHash (paper_url : String) : String :=
  ((pySplit '-' ((pySplit '/' paper_url).getLastD ""))).headD ""

/-- Outcome of the single requests.get inside get_all_hashes (line 62): a
transport-completed response carrying the hrefs of the list items of the
container div, a requests ConnectionError (caught at line 75), or any other
exception (not caught, so it propagates). -/
inductive IndexAttempt where
  | resp (status : Nat) (links : List String)
  | connError
  | otherExn
deriving DecidableEq

/-- Python value returned by get_all_hashes: a list of hashes (line 71), the
literal False (line 74), or None (falling off the end after the except branch,
lines 75-76).  raised models an uncaught exception escaping the function. -/
inductive HashesOut where
  | hashes (l : List String)
  | falseRes
  | noneRes
  | raised
deriving DecidableEq

/-- Lines 55-76: fetch the year index once (no retry), and on a 200 response
map every list-item link to its derived hash, in page order. -/
def get_all_hashes (a : IndexAttempt) : HashesOut :=
  match a with
  | .resp st links => if st = 200 then .hashes (links.map paperHash) else .falseRes
  | .connError => .noneRes
  | .otherExn => .raised

example : paperHash "https://papers.neurips.cc/paper/2013/abc123-Paper.pdf" = "abc123" := rfl

-- Data model of the extracted records (the Python dicts built at lines 125-189).

/-- A paper dict.  Legacy (lines 133-138): source_id, year label (the last path
segment of the year url, a string), title, abstract (None when the document
abstract is empty), full_text; pdf_url is the constant None.  Modern (lines
163-182): source_id is the constant None, year is the loop year (an int),
title and pdf_url are set only when the matching meta tag is present, abstract
is the text of the col div; full_text is the constant None. -/
inductive PaperRec where
  | legacy (source_id yearLabel title : String) (abstract : Option String) (full_text : String)
  | modern (year : Int) (title pdf_url : Option String) (abstract : String)
deriving DecidableEq

/-- An author dict.  Legacy (lines 142-146): source_id plus three fields that
are None when blank.  Modern (line 175): just a name. -/
inductive AuthorRec where
  | legacy (source_id : String) (first_name last_name institution : Option String)
  | modern (name : String)
deriving DecidableEq

/-- Python truthiness of a string field: the empty string maps to None
(the pattern x if x else None at lines 136 and 144-146). -/
def strOpt (s : String) : Option String := if s = "" then none else some s

/-- One author entry of the legacy JSON document (line 141). -/
structure LegacyAuthor where
  given_name : String
  family_name : String
  institution : String
deriving DecidableEq

/-- The legacy JSON metadata document (line 130), restricted to the keys the
script reads. -/
structure LegacyDoc where
  sourceid : String
  title : String
  abstract : String
  full_text : String
  authors : List LegacyAuthor
deriving DecidableEq

/-- One meta tag of the modern HTML page: its name attribute (absent when the
tag has no name attribute, line 168) and its content attribute. -/
structure MetaTag where
  name : Option String
  content : String
deriving DecidableEq

/-- The modern HTML abstract page: its meta tags in document order and the
text of the col div (line 181). -/
structure ModernPage where
  metas : List MetaTag
  colText : String
deriving DecidableEq

/-- Lines 126-147: build the paper dict and the author dicts from a legacy
metadata document.  The year label is year_url.split("/")[-1] (line 134). -/
def extractLegacy (year_url : String) (doc : LegacyDoc) : PaperRec × List AuthorRec :=
  (.legacy doc.sourceid ((pySplit '/' year_url).getLastD "") doc.title
      (strOpt doc.abstract) doc.full_text,
   doc.authors.map fun a =>
     .legacy doc.sourceid (strOpt a.given_name) (strOpt a.family_name) (strOpt a.institution))

/-- One iteration of the meta-tag loop, lines 167-178.  The three checks are
independent; assignments overwrite, appends accumulate.  Accumulator:
(title, pdf_url, authors so far). -/
def metaFold (acc : Option String × Option String × List AuthorRec) (m : MetaTag) :
    Option String × Option String × List AuthorRec :=
  let t := if m.name = some "citation_title" then some m.content else acc.1
  let auths := if m.name = some "citation_author" then acc.2.2 ++ [AuthorRec.modern m.content]
               else acc.2.2
  let pu := if m.name = some "citation_pdf_url" then some m.content else acc.2.1
  (t, pu, auths)

/-- Lines 159-182: build the paper dict and the author dicts from a modern
abstract page. -/
def extractModern (year : Int) (pg : ModernPage) : PaperRec × List AuthorRec :=
  let r := pg.metas.foldl metaFold (none, none, [])
  (.modern year r.1 r.2.1 pg.colText, r.2.2)

example :
    extractModern 2020 ⟨[⟨some "citation_title", "T"⟩, ⟨some "citation_author", "A"⟩,
        ⟨some "citation_author", "B"⟩, ⟨some "citation_pdf_url", "u.pdf"⟩], "abs"⟩ =
      (.modern 2020 (some "T") (some "u.pdf") "abs", [.modern "A", .modern "B"]) := rfl

example : extractLegacy "https://papers.neurips.cc/paper/2013"
      ⟨"s1", "T", "", "ft", [⟨"G", "", "I"⟩]⟩ =
    (.legacy "s1" "2013" "T" none "ft", [.legacy "s1" (some "G") none (some "I")]) := rfl

-- Per-hash processing: scrap_paper_and_authors, lines 87-189.

/-- The CLI configuration the loop body reads (lines 49-50): the optional
output directory and the skip-existing flag. -/
structure Config where
  out_dir : Option String
  skip_existing : Bool
deriving DecidableEq

/-- Python truthiness of out_dir (lines 90, 97, 188): set and nonempty. -/
def Config.hasDir (c : Config) : Bool :=
  match c.out_dir with
  | some d => d ≠ ""
  | none => false

/-- The directory string when present. -/
def Config.dirVal (c : Config) : String := c.out_dir.getD ""

/-- The per-paper csv path f-string of line 98 with year_dir from line 91. -/
def paperCsvPath (d : String) (year : Int) (paper_hash : String) : String :=
  d ++ "/" ++ toString year ++ "/" ++ paper_hash ++ ".csv"

/-- Lines 97-98: out_dir and skip_existing and os.path.exists(...). -/
def skipCheck (cfg : Config) (files : List String) (year : Int) (paper_hash : String) : Bool :=
  cfg.hasDir && cfg.skip_existing && files.contains (paperCsvPath cfg.dirVal year paper_hash)

/-- The paper url built before the retry loop, lines 101-104. -/
def paperUrl (year : Int) (year_url paper_hash : String) : String :=
  if year ≤ 2019 then year_url ++ "/file/" ++ paper_hash ++ "-Metadata.json"
  else BASE_URL_20 ++ "/" ++ toString year ++ "/hash/" ++ paper_hash ++ "-Abstract.html"

/-- The legacy metadata url rebuilt at line 127. -/
def legacyMetadataUrl (year_url paper_hash : String) : String :=
  year_url ++ "/file/" ++ paper_hash ++ "-Metadata.json"

/-- The modern abstract-page url rebuilt at line 157. -/
def modernAbstractUrl (year : Int) (paper_hash : String) : String :=
  BASE_URL_20 ++ "/" ++ toString year ++ "/hash/" ++ paper_hash ++ "-Abstract.html"

/-- The payload of the second fetch (lines 128 and 158), as the script parses
it: a JSON metadata document on the legacy path, an HTML page on the modern
path.  A payload of the wrong shape makes the parse step raise (json decoding
of HTML at line 130, or the missing col div at line 181). -/
inductive Payload where
  | legacy (doc : LegacyDoc)
  | modern (pg : ModernPage)
deriving DecidableEq

/-- Outcome of the second requests.get (lines 128 and 158): it runs outside
any try block, so a raised exception propagates. -/
inductive SecondAttempt where
  | ok (status : Nat) (payload : Payload)
  | exn
deriving DecidableEq

/-- Network oracle for one paper hash: the trace of attempt outcomes offered
to the retry loop and the outcome of the second (extraction) fetch. -/
structure PageOracle where
  loopTrace : List Attempt
  second : SecondAttempt
deriving DecidableEq

/-- How one iteration of the for loop over hashes (lines 96-189) ends. -/
inductive StepOut where
  | skipped
  | done (paper : PaperRec) (authors : List AuthorRec) (written : Option String)
  | yearHalt
  | fatalStop
  | crashed
  | incomplete
deriving DecidableEq

/-- The part of the loop body after the retry loop, lines 125-189, given the
run of the retry loop.  Returns the step outcome together with the list of
URLs requested (in order).  On the legacy path (year <= 2019) the metadata url
is fetched again (line 128) and parsed on a 200 status; a non-200 status
prints and breaks out of the hash loop (lines 149-150).  The modern path,
lines 157-186, is symmetric.  done carries the per-paper csv path when out_dir
is set (lines 188-189). -/
def processFetched (cfg : Config) (year : Int) (year_url paper_hash : String)
    (second : SecondAttempt) : LoopRun → StepOut × List String
  | ⟨.exhausted, _, n⟩ => (.incomplete, List.replicate n (paperUrl year year_url paper_hash))
  | ⟨.attrCrash, _, n⟩ => (.crashed, List.replicate n (paperUrl year year_url paper_hash))
  | ⟨.fatalSentinel, _, n⟩ => (.fatalStop, List.replicate n (paperUrl year year_url paper_hash))
  | ⟨.breakOk _ _, _, n⟩ =>
      let loopReqs := List.replicate n (paperUrl year year_url paper_hash)
      if year ≤ 2019 then
        match second with
        | .exn => (.crashed, loopReqs ++ [legacyMetadataUrl year_url paper_hash])
        | .ok st payload =>
            if st = 200 then
              match payload with
              | .legacy doc =>
                  (.done (extractLegacy year_url doc).1 (extractLegacy year_url doc).2
                      (if cfg.hasDir then some (paperCsvPath cfg.dirVal year paper_hash)
                       else none),
                   loopReqs ++ [legacyMetadataUrl year_url paper_hash])
              | .modern _ => (.crashed, loopReqs ++ [legacyMetadataUrl year_url paper_hash])
            else (.yearHalt, loopReqs ++ [legacyMetadataUrl year_url paper_hash])
      else
        match second with
        | .exn => (.crashed, loopReqs ++ [modernAbstractUrl year paper_hash])
        | .ok st payload =>
            if st = 200 then
              match payload with
              | .modern pg =>
                  (.done (extractModern year pg).1 (extractModern year pg).2
                      (if cfg.hasDir then some (paperCsvPath cfg.dirVal year paper_hash)
                       else none),
                   loopReqs ++ [modernAbstractUrl year paper_hash])
              | .legacy _ => (.crashed, loopReqs ++ [modernAbstractUrl year paper_hash])
            else (.yearHalt, loopReqs ++ [modernAbstractUrl year paper_hash])

/-- One iteration of the for loop over hashes, lines 96-189: the skip-existing
check (lines 97-99, before any request), then the retry loop (lines 106-122)
on the paper url of lines 101-104, then extraction. -/
def processHash (cfg : Config) (files : List String) (year : Int)
    (year_url paper_hash : String) (page : PageOracle) : StepOut × List String :=
  if skipCheck cfg files year paper_hash then (.skipped, [])
  else processFetched cfg year year_url paper_hash page.second
      (fetchLoop page.loopTrace none 1)

example :
    processHash ⟨some "out", true⟩ ["out/2020/h1.csv"] 2020 "u" "h1" ⟨[], .exn⟩ =
      (.skipped, []) := rfl

example :
    processHash ⟨none, false⟩ [] 2020 "https://papers.neurips.cc/paper/2020" "h1"
        ⟨[.ok 200 "page"], .ok 200 (.modern ⟨[⟨some "citation_title", "T"⟩], "abs"⟩)⟩ =
      (.done (.modern 2020 (some "T") none "abs") [] none,
       ["https://proceedings.neurips.cc/paper_files/paper/2020/hash/h1-Abstract.html",
        "https://proceedings.neurips.cc/paper_files/paper/2020/hash/h1-Abstract.html"]) := rfl

-- The year loop over hashes and the top-level driver, lines 96-205.

/-- The process-wide mutable state: the papers and paper_authors accumulators
(lines 51-52), the set of per-paper csv files on disk (reads at line 98,
writes at line 189), and the list of URLs requested so far. -/
structure ScrapState where
  papers : List PaperRec
  paper_authors : List AuthorRec
  files : List String
  requests : List String
deriving DecidableEq

/-- How scrap_paper_and_authors returns for one year: falling off the end of
the hash loop or breaking out of it (normal), raising the RuntimeError of line
121 (fatal), raising any other exception (crashed), or still inside the retry
loop when its trace ran out (incomplete). -/
inductive ScrapExit where
  | normal
  | fatal
  | crashed
  | incomplete
deriving DecidableEq

/-- The for loop over hashes of scrap_paper_and_authors (lines 96-189),
threading the process-wide state.  A done step appends the paper to papers
(line 187), the authors to paper_authors (lines 147 and 175), and, when
out_dir is set, writes the per-paper csv (lines 188-189).  A break (yearHalt)
ends the year normally; the two raise outcomes propagate. -/
def scrapYear (cfg : Config) (year : Int) (year_url : String)
    (oracle : String → PageOracle) : List String → ScrapState → ScrapState × ScrapExit
  | [], st => (st, .normal)
  | paper_hash :: rest, st =>
      match processHash cfg st.files year year_url paper_hash (oracle paper_hash) with
      | (out, reqs) =>
        let st1 : ScrapState := { st with requests := st.requests ++ reqs }
        match out with
        | .skipped => scrapYear cfg year year_url oracle rest st1
        | .done p auths w =>
            scrapYear cfg year year_url oracle rest
              { st1 with
                papers := st1.papers ++ [p],
                paper_authors := st1.paper_authors ++ auths,
                files := match w with | some f => st1.files ++ [f] | none => st1.files }
        | .yearHalt => (st1, .normal)
        | .fatalStop => (st1, .fatal)
        | .crashed => (st1, .crashed)
        | .incomplete => (st1, .incomplete)

/-- Line 193: the list of years range(start_year, end_year + 1). -/
def yearsList (startY endY : Int) : List Int :=
  (List.range (endY + 1 - startY).toNat).map (fun i => startY + i)

/-- Lines 193-198: for each year, fetch the index page (one request, line 62)
and, when get_all_hashes returns a truthy value (a nonempty list), run
scrap_paper_and_authors on it.  A falsy result (empty list, False, None)
skips the year; an uncaught exception from get_all_hashes crashes the run. -/
def runYearsAux (cfg : Config) (idxO : Int → IndexAttempt)
    (pgO : Int → String → PageOracle) : List Int → ScrapState → ScrapState × ScrapExit
  | [], st => (st, .normal)
  | y :: ys, st =>
      let year_url := BASE_URL ++ toString y
      let st1 : ScrapState := { st with requests := st.requests ++ [year_url] }
      match get_all_hashes (idxO y) with
      | .hashes [] => runYearsAux cfg idxO pgO ys st1
      | .hashes (h :: hs) =>
          match scrapYear cfg y year_url (pgO y) (h :: hs) st1 with
          | (st2, .normal) => runYearsAux cfg idxO pgO ys st2
          | (st2, .fatal) => (st2, .fatal)
          | (st2, .crashed) => (st2, .crashed)
          | (st2, .incomplete) => (st2, .incomplete)
      | .falseRes => runYearsAux cfg idxO pgO ys st1
      | .noneRes => runYearsAux cfg idxO pgO ys st1
      | .raised => (st1, .crashed)

/-- What the final block (lines 200-205) does. -/
inductive SaveOut where
  | saved
  | nothingSaved
deriving DecidableEq

/-- Lines 201-205: if papers and paper_authors, write papers.csv and
paper_authors.csv, else print that the files could not be saved. -/
def finalSave (papers : List PaperRec) (authors : List AuthorRec) : SaveOut :=
  if papers ≠ [] ∧ authors ≠ [] then .saved else .nothingSaved

/-- How the whole script run ends. -/
inductive RunExit where
  | completed (save : SaveOut)
  | fatal
  | crashed
  | incomplete
deriving DecidableEq

/-- The whole run, lines 193-205: the year loop followed, on normal
completion, by the final save block.  A propagating exception skips the final
save. -/
def runAll (cfg : Config) (startY endY : Int) (idxO : Int → IndexAttempt)
    (pgO : Int → String → PageOracle) (st0 : ScrapState) : ScrapState × RunExit :=
  match runYearsAux cfg idxO pgO (yearsList startY endY) st0 with
  | (st, .normal) => (st, .completed (finalSave st.papers st.paper_authors))
  | (st, .fatal) => (st, .fatal)
  | (st, .crashed) => (st, .crashed)
  | (st, .incomplete) => (st, .incomplete)

example : yearsList 2020 2020 = [2020] := rfl

example :
    runAll ⟨none, false⟩ 2020 2020 (fun _ => .connError) (fun _ _ => ⟨[], .exn⟩)
        ⟨[], [], [], []⟩ =
      (⟨[], [], [], ["https://papers.neurips.cc/paper/2020"]⟩,
       .completed .nothingSaved) := rfl

-- Helper lemmas about the retry loop.

/-- Doubling with the cap of lines 114-116 maps the Nth capped power of two to
the next one. -/
theorem nextSleep_min_pow (n : Nat) : nextSleep (min 60 (2 ^ n)) = min 60 (2 ^ (n + 1)) := by
  rcases Nat.lt_or_ge n 6 with h | h
  · interval_cases n <;> decide
  · have h1 : (60 : Nat) ≤ 2 ^ n :=
      le_trans (by norm_num) (Nat.pow_le_pow_right (by norm_num) h)
    have h2 : (60 : Nat) ≤ 2 ^ (n + 1) :=
      le_trans h1 (Nat.pow_le_pow_right (by norm_num) (Nat.le_succ n))
    rw [Nat.min_eq_left h1, Nat.min_eq_left h2]
    simp [nextSleep]

/-- Starting from the Nth capped power of two, the sleeps performed by the
retry loop are exactly the following capped powers of two, in order. -/
theorem fetchLoop_sleeps_eq (attempts : List Attempt) :
    ∀ (prev : Option (Nat × String)) (n : Nat),
      ∃ k, (fetchLoop attempts prev (min 60 (2 ^ n))).sleeps =
        (List.range k).map (fun j => min 60 (2 ^ (n + j))) := by
  induction attempts with
  | nil => intro prev n; exact ⟨0, by simp [fetchLoop]⟩
  | cons a rest ih =>
    intro prev n
    match a with
    | .ok st body =>
        by_cases hst : st = 200
        · subst hst
          by_cases hb : body = "Resource Not Found"
          · exact ⟨0, by simp [fetchLoop, hb]⟩
          · exact ⟨0, by simp [fetchLoop, hb]⟩
        · obtain ⟨k, hk⟩ := ih (some (st, body)) n
          exact ⟨k, by simp only [fetchLoop, if_neg hst]; exact hk⟩
    | .exn =>
        match prev with
        | none =>
            refine ⟨1, ?_⟩
            simp [fetchLoop, show List.range 1 = [0] from rfl]
        | some (pst, pbody) =>
            by_cases hst : pst = 200
            · subst hst
              by_cases hb : pbody = "Resource Not Found"
              · refine ⟨1, ?_⟩; simp [fetchLoop, hb, show List.range 1 = [0] from rfl]
              · refine ⟨1, ?_⟩; simp [fetchLoop, hb, show List.range 1 = [0] from rfl]
            · obtain ⟨k, hk⟩ := ih (some (pst, pbody)) (n + 1)
              rw [← nextSleep_min_pow] at hk
              refine ⟨k + 1, ?_⟩
              simp only [fetchLoop, if_neg hst]
              rw [hk, List.range_succ_eq_map, List.map_cons, List.map_map]
              refine congrArg₂ _ (by simp) ?_
              refine List.map_congr_left ?_
              intro j _
              have hj : n + 1 + j = n + (j + 1) := by omega
              simp [Function.comp, Nat.succ_eq_add_one, hj]

-- Claim theorems.

/-- C3: in the paper-page fetch loop, the Nth backoff sleep performed equals
min(60, 2^(N-1)) time-units (here 0-indexed: the sleep at index i equals
min 60 (2^i)); in particular the first sleep is 1 and no sleep exceeds 60. -/
theorem c3_backoff_growth (attempts : List Attempt) (prev : Option (Nat × String)) (i : Nat)
    (h : i < (fetchLoop attempts prev 1).sleeps.length) :
    (fetchLoop attempts prev 1).sleeps.getD i 0 = min 60 (2 ^ i) := by
  obtain ⟨k, hk⟩ := fetchLoop_sleeps_eq attempts prev 0
  have hk1 : (fetchLoop attempts prev 1).sleeps =
      (List.range k).map (fun j => min 60 (2 ^ (0 + j))) := hk
  rw [hk1] at h ⊢
  rw [List.getD_eq_getElem _ _ h]
  simp

/-- Witness for C3: seven consecutive transport failures after an initial
non-200 response sleep 1, 2, 4, 8, 16, 32, 60; the seventh sleep is 60. -/
theorem c3_witness :
    (fetchLoop [.exn, .exn, .exn, .exn, .exn, .exn, .exn, .ok 200 "b"]
        (some (500, "x")) 1).sleeps.getD 6 0 = min 60 (2 ^ 6) :=
  c3_backoff_growth _ _ 6 (by decide)

/-- C1 counterexample: with a 404 response first in the trace, the loop does
not return: it issues a second request for the same URL (2 requests consumed)
and returns only on the later 200; with only the 404 available the loop is
still running (exhausted), so it did not return after the transport-completed
non-200 attempt. -/
theorem c1_counterexample :
    fetchLoop [.ok 404 "x", .ok 200 "y"] none 1 = ⟨.breakOk "y" [], [], 2⟩ ∧
    (fetchLoop [.ok 404 "x"] none 1).outcome = .exhausted :=
  ⟨rfl, rfl⟩

/-- C1 amended: on a transport-completed attempt the loop returns immediately
only when the status is 200 (with a non-sentinel body); on any non-200 status
it does not return but immediately performs another request for the same URL
inside the loop, with no backoff sleep. -/
theorem c1_no_return_on_non200 (st2 : Nat) (body : String) (rest : List Attempt)
    (prev : Option (Nat × String)) (s : Nat) :
    (st2 = 200 → body ≠ "Resource Not Found" →
      fetchLoop (.ok st2 body :: rest) prev s = ⟨.breakOk body rest, [], 1⟩) ∧
    (st2 ≠ 200 →
      fetchLoop (.ok st2 body :: rest) prev s =
        ⟨(fetchLoop rest (some (st2, body)) s).outcome,
         (fetchLoop rest (some (st2, body)) s).sleeps,
         (fetchLoop rest (some (st2, body)) s).requests + 1⟩) := by
  constructor
  · intro h1 h2
    subst h1
    simp [fetchLoop, h2]
  · intro h1
    simp [fetchLoop, h1]

/-- Witness for C1 amended: a 200 attempt returns at once with one request; a
404 attempt hands control back to the loop with one more request consumed. -/
theorem c1_witness :
    fetchLoop [Attempt.ok 200 "ok"] none 1 = ⟨.breakOk "ok" [], [], 1⟩ ∧
    fetchLoop [Attempt.ok 404 "x"] none 1 =
      ⟨(fetchLoop [] (some (404, "x")) 1).outcome,
       (fetchLoop [] (some (404, "x")) 1).sleeps,
       (fetchLoop [] (some (404, "x")) 1).requests + 1⟩ :=
  ⟨(c1_no_return_on_non200 200 "ok" [] none 1).1 rfl (by decide),
   (c1_no_return_on_non200 404 "x" [] none 1).2 (by decide)⟩

/-- C2 counterexample: a connection error on the year-index fetch is caught
and surfaced as None with no retry, so the whole run performs exactly one
request and abandons the year, even though a retry oracle had a successful
attempt available; and a transport failure on the very first paper-page
attempt leaves response as None and crashes instead of retrying, even though
the next attempt would have succeeded. -/
theorem c2_counterexample :
    get_all_hashes .connError = .noneRes ∧
    runAll ⟨none, false⟩ 2020 2020 (fun _ => .connError)
        (fun _ _ => ⟨[.ok 200 "page"], .ok 200 (.modern ⟨[], "a"⟩)⟩) ⟨[], [], [], []⟩ =
      (⟨[], [], [], ["https://papers.neurips.cc/paper/2020"]⟩, .completed .nothingSaved) ∧
    fetchLoop [.exn, .ok 200 "page"] none 1 = ⟨.attrCrash, [1], 1⟩ :=
  ⟨rfl, rfl, rfl⟩

/-- C2 amended: only the paper-page fetch loop retries transport failures, and
only when an earlier attempt in the loop already completed at transport level
with a non-200 status; a transport failure on the very first paper-page
attempt crashes (AttributeError on None), and the year-index fetch never
retries: a caught connection error yields None and the year is skipped after
that single index request. -/
theorem c2_retry_only_with_previous_response :
    (∀ (rest : List Attempt) (s : Nat),
      fetchLoop (.exn :: rest) none s = ⟨.attrCrash, [s], 1⟩) ∧
    (∀ (rest : List Attempt) (pst : Nat) (pbody : String) (s : Nat), pst ≠ 200 →
      fetchLoop (.exn :: rest) (some (pst, pbody)) s =
        ⟨(fetchLoop rest (some (pst, pbody)) (nextSleep s)).outcome,
         s :: (fetchLoop rest (some (pst, pbody)) (nextSleep s)).sleeps,
         (fetchLoop rest (some (pst, pbody)) (nextSleep s)).requests + 1⟩) ∧
    get_all_hashes .connError = .noneRes ∧
    (∀ (cfg : Config) (idxO : Int → IndexAttempt) (pgO : Int → String → PageOracle)
        (y : Int) (ys : List Int) (st : ScrapState), idxO y = .connError →
      runYearsAux cfg idxO pgO (y :: ys) st =
        runYearsAux cfg idxO pgO ys
          { st with requests := st.requests ++ [BASE_URL ++ toString y] }) := by
  refine ⟨fun rest s => by simp [fetchLoop],
          fun rest pst pbody s h => by simp [fetchLoop, h], rfl, ?_⟩
  intro cfg idxO pgO y ys st h
  simp [runYearsAux, h, get_all_hashes]

/-- Witness for C2 amended at concrete inputs. -/
theorem c2_witness :
    fetchLoop [Attempt.exn] none 1 = ⟨.attrCrash, [1], 1⟩ ∧
    fetchLoop [Attempt.exn] (some (500, "x")) 1 =
      ⟨(fetchLoop [] (some (500, "x")) (nextSleep 1)).outcome,
       1 :: (fetchLoop [] (some (500, "x")) (nextSleep 1)).sleeps,
       (fetchLoop [] (some (500, "x")) (nextSleep 1)).requests + 1⟩ ∧
    runYearsAux ⟨none, false⟩ (fun _ => .connError) (fun _ _ => ⟨[], .exn⟩)
        [2020] ⟨[], [], [], []⟩ =
      runYearsAux ⟨none, false⟩ (fun _ => .connError) (fun _ _ => ⟨[], .exn⟩)
        [] ⟨[], [], [], [BASE_URL ++ toString (2020 : Int)]⟩ :=
  ⟨c2_retry_only_with_previous_response.1 [] 1,
   c2_retry_only_with_previous_response.2.1 [] 500 "x" 1 (by decide),
   c2_retry_only_with_previous_response.2.2.2 ⟨none, false⟩ (fun _ => .connError)
     (fun _ _ => ⟨[], .exn⟩) 2020 [] ⟨[], [], [], []⟩ rfl⟩

/-- C4: a 200 response whose body is exactly "Resource Not Found" makes the
retry loop raise at once (one request, no retry); the raise propagates through
the hash loop (fatal for the year) and through the year loop, so the run halts
without reaching the final save. -/
theorem c4_fatal_sentinel :
    (∀ (rest : List Attempt) (prev : Option (Nat × String)) (s : Nat),
      fetchLoop (.ok 200 "Resource Not Found" :: rest) prev s = ⟨.fatalSentinel, [], 1⟩) ∧
    (∀ (cfg : Config) (files : List String) (year : Int) (year_url ph : String)
        (tr : List Attempt) (sec : SecondAttempt),
      skipCheck cfg files year ph = false →
      processHash cfg files year year_url ph ⟨.ok 200 "Resource Not Found" :: tr, sec⟩ =
        (.fatalStop, [paperUrl year year_url ph])) ∧
    (∀ (cfg : Config) (year : Int) (year_url : String) (oracle : String → PageOracle)
        (ph : String) (rest : List String) (st : ScrapState)
        (tr : List Attempt) (sec : SecondAttempt),
      skipCheck cfg st.files year ph = false →
      oracle ph = ⟨.ok 200 "Resource Not Found" :: tr, sec⟩ →
      scrapYear cfg year year_url oracle (ph :: rest) st =
        ({ st with requests := st.requests ++ [paperUrl year year_url ph] }, .fatal)) ∧
    (∀ (cfg : Config) (startY endY : Int) (idxO : Int → IndexAttempt)
        (pgO : Int → String → PageOracle) (st0 st : ScrapState),
      runYearsAux cfg idxO pgO (yearsList startY endY) st0 = (st, .fatal) →
      runAll cfg startY endY idxO pgO st0 = (st, .fatal)) := by
  refine ⟨fun rest prev s => by simp [fetchLoop], ?_, ?_, ?_⟩
  · intro cfg files year year_url ph tr sec hskip
    simp [processHash, hskip, fetchLoop, processFetched]
  · intro cfg year year_url oracle ph rest st tr sec hskip horacle
    simp [scrapYear, horacle, processHash, hskip, fetchLoop, processFetched]
  · intro cfg startY endY idxO pgO st0 st h
    simp [runAll, h]

/-- Witness for C4 at concrete inputs: the sentinel halts a one-year run. -/
theorem c4_witness :
    fetchLoop [Attempt.ok 200 "Resource Not Found"] none 1 = ⟨.fatalSentinel, [], 1⟩ ∧
    processHash ⟨none, false⟩ [] 2020 "https://papers.neurips.cc/paper/2020" "h1"
        ⟨[.ok 200 "Resource Not Found"], .exn⟩ =
      (.fatalStop, [paperUrl 2020 "https://papers.neurips.cc/paper/2020" "h1"]) ∧
    scrapYear ⟨none, false⟩ 2020 "https://papers.neurips.cc/paper/2020"
        (fun _ => ⟨[.ok 200 "Resource Not Found"], .exn⟩) ["h1", "h2"] ⟨[], [], [], []⟩ =
      (⟨[], [], [], [paperUrl 2020 "https://papers.neurips.cc/paper/2020" "h1"]⟩, .fatal) ∧
    runAll ⟨none, false⟩ 2020 2020 (fun _ => .resp 200 ["x/h1-Paper.pdf"])
        (fun _ _ => ⟨[.ok 200 "Resource Not Found"], .exn⟩) ⟨[], [], [], []⟩ =
      (⟨[], [], [],
        ["https://papers.neurips.cc/paper/2020",
         paperUrl 2020 "https://papers.neurips.cc/paper/2020" "h1"]⟩, .fatal) := by
  refine ⟨c4_fatal_sentinel.1 [] none 1,
          c4_fatal_sentinel.2.1 ⟨none, false⟩ [] 2020 _ "h1" [] .exn (by decide), ?_, ?_⟩
  · have h := c4_fatal_sentinel.2.2.1 ⟨none, false⟩ 2020
      "https://papers.neurips.cc/paper/2020" (fun _ => ⟨[.ok 200 "Resource Not Found"], .exn⟩)
      "h1" ["h2"] ⟨[], [], [], []⟩ [] .exn (by decide) rfl
    simpa using h
  · exact c4_fatal_sentinel.2.2.2 ⟨none, false⟩ 2020 2020 _ _ _ _ (by decide)

/-- C5: the schema boundary is exact.  The url built before the retry loop
coincides with the legacy metadata url for every year up to 2019 and with the
modern abstract-page url for every year from 2020 on, and the extraction step
parses the second fetch as a legacy JSON document exactly when year <= 2019
and as a modern HTML page exactly when year >= 2020. -/
theorem c5_schema_routing :
    (∀ (year : Int) (year_url ph : String), year ≤ 2019 →
      paperUrl year year_url ph = legacyMetadataUrl year_url ph) ∧
    (∀ (year : Int) (year_url ph : String), 2020 ≤ year →
      paperUrl year year_url ph = modernAbstractUrl year ph) ∧
    (∀ (cfg : Config) (files : List String) (year : Int) (year_url ph : String)
        (lt : List Attempt) (doc : LegacyDoc) (b : String) (r2 : List Attempt)
        (sl : List Nat) (n : Nat),
      year ≤ 2019 → skipCheck cfg files year ph = false →
      fetchLoop lt none 1 = ⟨.breakOk b r2, sl, n⟩ →
      processHash cfg files year year_url ph ⟨lt, .ok 200 (.legacy doc)⟩ =
        (.done (extractLegacy year_url doc).1 (extractLegacy year_url doc).2
            (if cfg.hasDir then some (paperCsvPath cfg.dirVal year ph) else none),
         List.replicate n (paperUrl year year_url ph) ++ [legacyMetadataUrl year_url ph])) ∧
    (∀ (cfg : Config) (files : List String) (year : Int) (year_url ph : String)
        (lt : List Attempt) (pg : ModernPage) (b : String) (r2 : List Attempt)
        (sl : List Nat) (n : Nat),
      2020 ≤ year → skipCheck cfg files year ph = false →
      fetchLoop lt none 1 = ⟨.breakOk b r2, sl, n⟩ →
      processHash cfg files year year_url ph ⟨lt, .ok 200 (.modern pg)⟩ =
        (.done (extractModern year pg).1 (extractModern year pg).2
            (if cfg.hasDir then some (paperCsvPath cfg.dirVal year ph) else none),
         List.replicate n (paperUrl year year_url ph) ++ [modernAbstractUrl year ph])) := by
  refine ⟨?_, ?_, ?_, ?_⟩
  · intro year year_url ph hy
    simp [paperUrl, legacyMetadataUrl, hy]
  · intro year year_url ph hy
    have hne : ¬ (year ≤ 2019) := by omega
    simp [paperUrl, modernAbstractUrl, hne]
  · intro cfg files year year_url ph lt doc b r2 sl n hy hskip hloop
    simp [processHash, hskip, hloop, processFetched, hy]
  · intro cfg files year year_url ph lt pg b r2 sl n hy hskip hloop
    have hne : ¬ (year ≤ 2019) := by omega
    simp [processHash, hskip, hloop, processFetched, hne]

/-- Witness for C5 at the boundary years 2019 and 2020. -/
theorem c5_witness :
    paperUrl 2019 "u" "h1" = legacyMetadataUrl "u" "h1" ∧
    paperUrl 2020 "u" "h1" = modernAbstractUrl 2020 "h1" ∧
    processHash ⟨none, false⟩ [] 2019 "u" "h1"
        ⟨[.ok 200 "page"], .ok 200 (.legacy ⟨"s", "T", "", "f", []⟩)⟩ =
      (.done (extractLegacy "u" ⟨"s", "T", "", "f", []⟩).1
          (extractLegacy "u" ⟨"s", "T", "", "f", []⟩).2 none,
       List.replicate 1 (paperUrl 2019 "u" "h1") ++ [legacyMetadataUrl "u" "h1"]) ∧
    processHash ⟨none, false⟩ [] 2020 "u" "h1"
        ⟨[.ok 200 "page"], .ok 200 (.modern ⟨[], "a"⟩)⟩ =
      (.done (extractModern 2020 ⟨[], "a"⟩).1 (extractModern 2020 ⟨[], "a"⟩).2 none,
       List.replicate 1 (paperUrl 2020 "u" "h1") ++ [modernAbstractUrl 2020 "h1"]) :=
  ⟨c5_schema_routing.1 2019 "u" "h1" (by decide),
   c5_schema_routing.2.1 2020 "u" "h1" (by decide),
   c5_schema_routing.2.2.1 ⟨none, false⟩ [] 2019 "u" "h1" [.ok 200 "page"]
     ⟨"s", "T", "", "f", []⟩ "page" [] [] 1 (by decide) (by decide) rfl,
   c5_schema_routing.2.2.2 ⟨none, false⟩ [] 2020 "u" "h1" [.ok 200 "page"]
     ⟨[], "a"⟩ "page" [] [] 1 (by decide) (by decide) rfl⟩

/-- C6: on a 200 index response the derived identifiers are the link targets
mapped through split("/")[-1].split("-")[0], in page order; on the example
link target the derived identifier is abc123, and the cut is at the first
dash of the final path segment. -/
theorem c6_hash_derivation :
    (∀ links : List String,
      get_all_hashes (.resp 200 links) = .hashes (links.map paperHash)) ∧
    paperHash "https://papers.neurips.cc/paper/2013/abc123-Paper.pdf" = "abc123" ∧
    paperHash "x/y/abc-def-ghi.pdf" = "abc" ∧
    get_all_hashes (.resp 200 ["p/aa-1.pdf", "q/bb-2.pdf"]) = .hashes ["aa", "bb"] :=
  ⟨fun links => by simp [get_all_hashes], rfl, rfl, rfl⟩

/-- C7: with an output directory configured and skip-existing enabled, an
identifier whose per-identifier csv already exists is skipped before any
request: the step ends as skipped with an empty request list. -/
theorem c7_skip_existing (cfg : Config) (files : List String) (year : Int)
    (year_url ph : String) (page : PageOracle)
    (h1 : cfg.hasDir = true) (h2 : cfg.skip_existing = true)
    (h3 : files.contains (paperCsvPath cfg.dirVal year ph) = true) :
    processHash cfg files year year_url ph page = (.skipped, []) := by
  have h3m : paperCsvPath cfg.dirVal year ph ∈ files := by simpa using h3
  have hs : skipCheck cfg files year ph = true := by
    simp [skipCheck, h1, h2, h3m]
  simp [processHash, hs]

/-- Witness for C7 at a concrete configuration and filesystem. -/
theorem c7_witness :
    processHash ⟨some "out", true⟩ ["out/2020/h1.csv"] 2020 "u" "h1" ⟨[.exn], .exn⟩ =
      (.skipped, []) :=
  c7_skip_existing _ _ _ _ _ _ (by decide) (by decide) (by decide)

/-- C8: the final block writes the two aggregate files exactly when both the
papers accumulator and the authors accumulator are nonempty, and otherwise
reports that nothing was saved; a normally completed year loop always reaches
this block. -/
theorem c8_export_gate :
    (∀ (ps : List PaperRec) (auths : List AuthorRec),
      (finalSave ps auths = .saved ↔ ps ≠ [] ∧ auths ≠ []) ∧
      (finalSave ps auths = .nothingSaved ↔ ps = [] ∨ auths = [])) ∧
    (∀ (cfg : Config) (startY endY : Int) (idxO : Int → IndexAttempt)
        (pgO : Int → String → PageOracle) (st0 st : ScrapState),
      runYearsAux cfg idxO pgO (yearsList startY endY) st0 = (st, .normal) →
      runAll cfg startY endY idxO pgO st0 =
        (st, .completed (finalSave st.papers st.paper_authors))) := by
  constructor
  · intro ps auths
    by_cases hp : ps = [] <;> by_cases ha : auths = [] <;> simp [finalSave, hp, ha]
  · intro cfg startY endY idxO pgO st0 st h
    simp [runAll, h]

/-- Witness for C8: one populated export saves, and a completed empty run
reaches the final block and reports nothing saved. -/
theorem c8_witness :
    (finalSave [PaperRec.modern 2020 none none "a"] [AuthorRec.modern "A"] = .saved ↔
      ([PaperRec.modern 2020 none none "a"] ≠ ([] : List PaperRec) ∧
       [AuthorRec.modern "A"] ≠ ([] : List AuthorRec))) ∧
    runAll ⟨none, false⟩ 2020 2020 (fun _ => .connError) (fun _ _ => ⟨[], .exn⟩)
        ⟨[], [], [], []⟩ =
      (⟨[], [], [], ["https://papers.neurips.cc/paper/2020"]⟩,
       .completed (finalSave [] [])) :=
  ⟨(c8_export_gate.1 _ _).1,
   c8_export_gate.2 ⟨none, false⟩ 2020 2020 _ _ _ _ (by decide)⟩

/-- C9: a skipped identifier contributes nothing at all to the run state: the
step for a hash whose csv already exists is the identity on the papers and
authors accumulators, the filesystem, and the request list. -/
theorem c9_skip_frame (cfg : Config) (year : Int) (year_url : String)
    (oracle : String → PageOracle) (ph : String) (rest : List String) (st : ScrapState)
    (h1 : skipCheck cfg st.files year ph = true) :
    scrapYear cfg year year_url oracle (ph :: rest) st =
      scrapYear cfg year year_url oracle rest st := by
  have hp : processHash cfg st.files year year_url ph (oracle ph) = (.skipped, []) := by
    simp [processHash, h1]
  simp only [scrapYear, hp, List.append_nil]

/-- Witness for C9 at a concrete state. -/
theorem c9_witness :
    scrapYear ⟨some "out", true⟩ 2020 "u" (fun _ => ⟨[.exn], .exn⟩) ["h1"]
        ⟨[], [], ["out/2020/h1.csv"], []⟩ =
      scrapYear ⟨some "out", true⟩ 2020 "u" (fun _ => ⟨[.exn], .exn⟩) []
        ⟨[], [], ["out/2020/h1.csv"], []⟩ :=
  c9_skip_frame _ _ _ _ _ _ _ (by decide)

/-- A run of the retry loop that consumed no request can only be exhausted:
every processed attempt counts one request. -/
theorem fetchLoop_requests_zero (attempts : List Attempt) (prev : Option (Nat × String))
    (s : Nat) (h : (fetchLoop attempts prev s).requests = 0) :
    (fetchLoop attempts prev s).outcome = .exhausted := by
  cases attempts with
  | nil => rfl
  | cons a rest =>
    cases a with
    | ok st2 body =>
        by_cases hst : st2 = 200
        · subst hst
          by_cases hb : body = "Resource Not Found" <;> simp [fetchLoop, hb] at h
        · simp [fetchLoop, hst] at h
    | exn =>
        cases prev with
        | none => simp [fetchLoop] at h
        | some p =>
            obtain ⟨pst, pbody⟩ := p
            by_cases hst : pst = 200
            · subst hst
              by_cases hb : pbody = "Resource Not Found" <;> simp [fetchLoop, hb] at h
            · simp [fetchLoop, hst] at h

/-- After a successful break of the retry loop, the second fetch of the
extraction step targets the same paper url, whatever its outcome: the request
list of the extraction step is the loop requests followed by one more request
for that url. -/
theorem processFetched_breakOk_snd (cfg : Config) (year : Int) (year_url ph : String)
    (sec : SecondAttempt) (b : String) (r2 : List Attempt) (sl : List Nat) (n : Nat) :
    (processFetched cfg year year_url ph sec ⟨.breakOk b r2, sl, n⟩).2 =
      List.replicate n (paperUrl year year_url ph) ++ [paperUrl year year_url ph] := by
  have hurl : paperUrl year year_url ph =
      if year ≤ 2019 then legacyMetadataUrl year_url ph else modernAbstractUrl year ph := rfl
  by_cases hy : year ≤ 2019 <;>
    cases sec with
    | exn => simp [processFetched, hy, hurl]
    | ok st2 pay =>
        cases pay <;> by_cases hst : st2 = 200 <;> simp [processFetched, hy, hurl, hst]

/-- C10: every identifier that is not skipped and whose retry loop breaks on a
200 response has its paper page requested at least twice, always at the same
url (n loop requests plus the unconditioned extraction request); and when that
second request comes back with a non-200 status the year halts: the remaining
identifiers are never processed, even though the first request succeeded. -/
theorem c10_double_fetch :
    (∀ (cfg : Config) (files : List String) (year : Int) (year_url ph : String)
        (pg : PageOracle) (b : String) (r2 : List Attempt) (sl : List Nat) (n : Nat),
      skipCheck cfg files year ph = false →
      fetchLoop pg.loopTrace none 1 = ⟨.breakOk b r2, sl, n⟩ →
      (processHash cfg files year year_url ph pg).2 =
        List.replicate (n + 1) (paperUrl year year_url ph) ∧ 2 ≤ n + 1) ∧
    (∀ (cfg : Config) (year : Int) (year_url : String) (oracle : String → PageOracle)
        (ph : String) (rest : List String) (st : ScrapState) (b : String)
        (r2 : List Attempt) (sl : List Nat) (n : Nat) (st2 : Nat) (pay : Payload),
      skipCheck cfg st.files year ph = false →
      fetchLoop (oracle ph).loopTrace none 1 = ⟨.breakOk b r2, sl, n⟩ →
      (oracle ph).second = .ok st2 pay → st2 ≠ 200 →
      scrapYear cfg year year_url oracle (ph :: rest) st =
        ({ st with requests :=
            st.requests ++ List.replicate (n + 1) (paperUrl year year_url ph) }, .normal)) := by
  constructor
  · intro cfg files year year_url ph pg b r2 sl n hskip hloop
    have hn : n ≠ 0 := by
      intro h0
      have hz := fetchLoop_requests_zero pg.loopTrace none 1 (by rw [hloop]; exact h0)
      rw [hloop] at hz
      simp at hz
    constructor
    · have hsnd : (processHash cfg files year year_url ph pg).2 =
          (processFetched cfg year year_url ph pg.second ⟨.breakOk b r2, sl, n⟩).2 := by
        simp [processHash, hskip, hloop]
      rw [hsnd, processFetched_breakOk_snd]
      exact (List.replicate_succ' _ _).symm
    · omega
  · intro cfg year year_url oracle ph rest st b r2 sl n st2 pay hskip hloop hsec hst
    have hurl : paperUrl year year_url ph =
        if year ≤ 2019 then legacyMetadataUrl year_url ph else modernAbstractUrl year ph := rfl
    have hpf : processHash cfg st.files year year_url ph (oracle ph) =
        (.yearHalt, List.replicate (n + 1) (paperUrl year year_url ph)) := by
      have h2 : processHash cfg st.files year year_url ph (oracle ph) =
          processFetched cfg year year_url ph (oracle ph).second ⟨.breakOk b r2, sl, n⟩ := by
        simp [processHash, hskip, hloop]
      rw [h2, hsec]
      by_cases hy : year ≤ 2019 <;> cases pay <;>
        simp [processFetched, hy, hst, hurl, List.replicate_succ']
    simp [scrapYear, hpf]

/-- Witness for C10: one loop request, one extraction request, same url; a 404
on the extraction request ends the year before the second identifier. -/
theorem c10_witness :
    ((processHash ⟨none, false⟩ [] 2020 "u" "h1"
        ⟨[.ok 200 "page"], .ok 404 (.modern ⟨[], "a"⟩)⟩).2 =
      List.replicate 2 (paperUrl 2020 "u" "h1") ∧ 2 ≤ 2) ∧
    scrapYear ⟨none, false⟩ 2020 "u" (fun _ => ⟨[.ok 200 "page"], .ok 404 (.modern ⟨[], "a"⟩)⟩)
        ["h1", "h2"] ⟨[], [], [], []⟩ =
      (⟨[], [], [], List.replicate 2 (paperUrl 2020 "u" "h1")⟩, .normal) := by
  constructor
  · exact c10_double_fetch.1 ⟨none, false⟩ [] 2020 "u" "h1"
      ⟨[.ok 200 "page"], .ok 404 (.modern ⟨[], "a"⟩)⟩ "page" [] [] 1 (by decide) rfl
  · have h := c10_double_fetch.2 ⟨none, false⟩ 2020 "u"
      (fun _ => ⟨[.ok 200 "page"], .ok 404 (.modern ⟨[], "a"⟩)⟩) "h1" ["h2"]
      ⟨[], [], [], []⟩ "page" [] [] 1 404 (.modern ⟨[], "a"⟩) (by decide) rfl rfl (by decide)
    simpa using h
